import Mathlib

/-!
Verification of the fetch-and-load pipeline of `stock-trading-python-app`
(`src/script.py`): the rate-limited pager/aggregator `run_stock_job` and the
idempotent partitioned loader `load_tickers_to_snowflake`, shallowly embedded
as Lean functions, with theorems about pagination, rate limiting, error
handling, idempotence, atomicity and resource cleanup.
-/

/-- One security reference entry as returned by the upstream API.  Mirrors the
fields read out of each ticker dict in `load_tickers_to_snowflake`
(`ticker.get('ticker')`, …); every field is optional because `dict.get`
yields `None` when a key is absent. -/
structure Ticker where
  ticker : Option String
  name : Option String
  market : Option String
  locale : Option String
  primary_exchange : Option String
  type : Option String
  active : Option Bool
  currency_name : Option String
  cik : Option String
  composite_figi : Option String
  share_class_figi : Option String
  last_updated_utc : Option String
deriving DecidableEq, Repr

/-- The load partition key: the UTC calendar date of the run
(`datetime.now(timezone.utc).date()`), abstracted as a day number. -/
abbrev Date := Nat

/-- One page of the paginated API response, as consumed by `run_stock_job`:
HTTP status code, the `results` array (`data.get('results', [])`) and the
optional next-page cursor (`data.get('next_url')`). -/
structure Page where
  status_code : Nat
  results : List Ticker
  next_url : Option String
deriving DecidableEq, Repr

/-- What one run of the pagination loop produced: the aggregated tickers, the
number of HTTP requests issued, and the sequence of sleeps (in seconds)
taken between requests. -/
structure FetchTrace where
  tickers : List Ticker
  requests : Nat
  sleeps : List Nat
deriving DecidableEq, Repr

/-- The hardcoded inter-request delay of `run_stock_job`: `time.sleep(13)`,
derived in the source comment as 60 s / 5 requests per minute, plus a one
second buffer. -/
def rateLimitDelay : Nat := 13

/-- The pagination loop of `run_stock_job` (`while next_url: ...`), driven by
the chain of responses the server returns to successive requests.  Each list
element is the response to one request.  A 200 response has its `results`
appended to the aggregate and, when it carries a `next_url`, the loop sleeps
`rateLimitDelay` seconds and issues the next request; a 200 response without
`next_url` ends the loop; a non-200 response breaks out of the loop at once. -/
def fetchPages : List Page → FetchTrace
  | [] => { tickers := [], requests := 0, sleeps := [] }
  | p :: rest =>
    if p.status_code = 200 then
      match p.next_url with
      | none => { tickers := p.results, requests := 1, sleeps := [] }
      | some _ =>
        let t := fetchPages rest
        { tickers := p.results ++ t.tickers
          requests := 1 + t.requests
          sleeps := rateLimitDelay :: t.sleeps }
    else
      { tickers := [], requests := 1, sleeps := [] }

/-- The error message raised by `run_stock_job` when `POLYGON_API_KEY` is
missing (apostrophe of the original message elided). -/
def configErrorMsg : String :=
  "POLYGON_API_KEY not found. Make sure it is set in your .env file."

/-- `run_stock_job` of `src/script.py`: reads the API key from the
environment (`os.getenv` yields `none` when unset) and raises a `ValueError`
before opening the HTTP session when the key is falsy (`None` or the empty
string); otherwise runs the pagination loop against the server. -/
def run_stock_job (apiKey : Option String) (server : List Page) :
    Except String FetchTrace :=
  match apiKey with
  | none => Except.error configErrorMsg
  | some k =>
    if k = "" then Except.error configErrorMsg
    else Except.ok (fetchPages server)

/-- A well-formed cursor chain: every page but the last carries a `next_url`
cursor and the last page carries none.  This is the shape of "a sequence of
valid paginated responses" ending normally. -/
def chainOK : List Page → Bool
  | [] => true
  | [p] => p.next_url.isNone
  | p :: q :: rest => p.next_url.isSome && chainOK (q :: rest)

/-- One row of the destination table, as built in the insert loop of
`load_tickers_to_snowflake`: the twelve ticker fields plus the `DS`
partition-date column. -/
structure Row where
  ticker : Option String
  name : Option String
  market : Option String
  locale : Option String
  primary_exchange : Option String
  type : Option String
  active : Option Bool
  currency_name : Option String
  cik : Option String
  composite_figi : Option String
  share_class_figi : Option String
  last_updated_utc : Option String
  ds : Date
deriving DecidableEq, Repr

/-- The row built from one ticker dict in `load_tickers_to_snowflake`:
each field via `ticker.get(...)`, and `today` as the `DS` column value. -/
def tickerToRow (today : Date) (t : Ticker) : Row :=
  { ticker := t.ticker
    name := t.name
    market := t.market
    locale := t.locale
    primary_exchange := t.primary_exchange
    type := t.type
    active := t.active
    currency_name := t.currency_name
    cik := t.cik
    composite_figi := t.composite_figi
    share_class_figi := t.share_class_figi
    last_updated_utc := t.last_updated_utc
    ds := today }

/-- The destination connection: the committed table contents and the rows
staged in the current (not yet committed) transaction. -/
structure Conn where
  committed : List Row
  pending : List Row
deriving DecidableEq, Repr

/-- `SELECT COUNT(1) FROM table WHERE DS = d` over the committed table. -/
def countDS (rows : List Row) (d : Date) : Nat :=
  (rows.filter (fun r => r.ds == d)).length

/-- `conn.commit()`: publish the staged rows into the committed table. -/
def Conn.commitTxn (c : Conn) : Conn :=
  { committed := c.committed ++ c.pending, pending := [] }

/-- `conn.rollback()`: discard the staged rows, leaving the committed table
untouched. -/
def Conn.rollbackTxn (c : Conn) : Conn :=
  { committed := c.committed, pending := [] }

/-- `cursor.executemany(insert_sql, rows)`: stages the rows into the open
transaction.  `failAt = some k` injects an SQL failure after the first `k`
rows were staged (the error is raised, the transaction left open with a
partial staging); `failAt = none` means the statement succeeds.  Returns the
connection afterwards and whether an error was raised. -/
def executemanyInsert (c : Conn) (rows : List Row) (failAt : Option Nat) :
    Conn × Bool :=
  match failAt with
  | none => ({ c with pending := c.pending ++ rows }, false)
  | some k => ({ c with pending := c.pending ++ rows.take k }, true)

/-- Outcome of one loader invocation: partition already populated (early
`return`), batch committed, or exception re-raised to the caller. -/
inductive LoadOutcome where
  | skip
  | commitOk
  | fail
deriving DecidableEq, Repr

/-- Result of one loader invocation: connection afterwards, outcome, and
whether the cursor opened at entry is still open. -/
structure LoadResult where
  conn : Conn
  outcome : LoadOutcome
  cursorOpen : Bool
deriving DecidableEq, Repr

/-- The `try`/`except` body of `load_tickers_to_snowflake`, before the
`finally` clause runs: check `countDS` for `today`; if positive, return
early (skip); otherwise build the rows, `executemany` them (possibly failing
at `failAt`) and either commit, or on the exception roll back and re-raise.
The cursor opened by `conn.cursor()` is still open on every path here. -/
def loadBody (tickers : List Ticker) (c : Conn) (today : Date)
    (failAt : Option Nat) : LoadResult :=
  let count := countDS c.committed today
  if count > 0 then
    { conn := c, outcome := LoadOutcome.skip, cursorOpen := true }
  else
    let rows := tickers.map (tickerToRow today)
    let step := executemanyInsert c rows failAt
    if step.2 then
      { conn := step.1.rollbackTxn, outcome := LoadOutcome.fail
        cursorOpen := true }
    else
      { conn := step.1.commitTxn, outcome := LoadOutcome.commitOk
        cursorOpen := true }

/-- `load_tickers_to_snowflake` of `src/script.py`: the body wrapped by the
`finally: cursor.close()` clause, which closes the cursor on every exit path
(early return, successful commit, re-raised exception). -/
def load_tickers_to_snowflake (tickers : List Ticker) (c : Conn)
    (today : Date) (failAt : Option Nat) : LoadResult :=
  let r := loadBody tickers c today failAt
  { r with cursorOpen := false }

/-! ## Sample concrete inputs, used by the witness theorems -/

/-- A sample ticker record. -/
def sampleTicker : Ticker :=
  { ticker := some "AAPL"
    name := some "Apple Inc."
    market := some "stocks"
    locale := none
    primary_exchange := none
    type := none
    active := some true
    currency_name := none
    cik := none
    composite_figi := none
    share_class_figi := none
    last_updated_utc := none }

/-- A second sample ticker record. -/
def sampleTicker2 : Ticker :=
  { ticker := some "MSFT"
    name := none
    market := none
    locale := none
    primary_exchange := none
    type := none
    active := none
    currency_name := none
    cik := none
    composite_figi := none
    share_class_figi := none
    last_updated_utc := none }

/-- A successful page carrying a next-page cursor. -/
def samplePageCursor : Page :=
  { status_code := 200, results := [sampleTicker], next_url := some "u2" }

/-- A successful final page (no next-page cursor). -/
def samplePageLast : Page :=
  { status_code := 200, results := [sampleTicker2], next_url := none }

/-- A failed page (HTTP 429). -/
def samplePageErr : Page :=
  { status_code := 429, results := [], next_url := none }

/-! ## Helper lemmas about the pager -/

/-- Unfolding: a successful page with no cursor ends the loop. -/
theorem fetchPages_cons_none (p : Page) (rest : List Page)
    (hs : p.status_code = 200) (hn : p.next_url = none) :
    fetchPages (p :: rest) =
      { tickers := p.results, requests := 1, sleeps := [] } := by
  rw [fetchPages]
  simp [hs, hn]

/-- Unfolding: a successful page with a cursor accumulates, sleeps, and the
loop continues on the remaining chain. -/
theorem fetchPages_cons_some (p : Page) (rest : List Page) (u : String)
    (hs : p.status_code = 200) (hu : p.next_url = some u) :
    fetchPages (p :: rest) =
      { tickers := p.results ++ (fetchPages rest).tickers
        requests := 1 + (fetchPages rest).requests
        sleeps := rateLimitDelay :: (fetchPages rest).sleeps } := by
  rw [fetchPages]
  simp [hs, hu]

/-- Unfolding: a non-200 page breaks the loop at once. -/
theorem fetchPages_cons_err (p : Page) (rest : List Page)
    (hs : p.status_code ≠ 200) :
    fetchPages (p :: rest) =
      { tickers := [], requests := 1, sleeps := [] } := by
  rw [fetchPages]
  simp [hs]

/-- On a well-formed, all-successful chain, the pagination loop returns the
concatenation of the page results and sleeps exactly once between
consecutive requests. -/
theorem fetchChain_spec : ∀ ps : List Page,
    (∀ p ∈ ps, p.status_code = 200) → chainOK ps = true →
    (fetchPages ps).tickers = (ps.map Page.results).flatten ∧
    (fetchPages ps).sleeps = List.replicate (ps.length - 1) rateLimitDelay
  | [], _, _ => by simp [fetchPages]
  | [p], h200, hch => by
    have hs : p.status_code = 200 := h200 p (by simp)
    have hn : p.next_url = none := by
      simpa [chainOK, Option.isNone_iff_eq_none] using hch
    simp [fetchPages_cons_none p [] hs hn]
  | p :: q :: rest, h200, hch => by
    have hs : p.status_code = 200 := h200 p (by simp)
    have hch' : p.next_url.isSome = true ∧ chainOK (q :: rest) = true := by
      simpa [chainOK, Bool.and_eq_true] using hch
    obtain ⟨u, hu⟩ := Option.isSome_iff_exists.mp hch'.1
    have ih := fetchChain_spec (q :: rest)
      (fun r hr => h200 r (List.mem_cons_of_mem p hr)) hch'.2
    rw [fetchPages_cons_some p (q :: rest) u hs hu]
    constructor
    · simp [ih.1]
    · simp [ih.2, List.replicate]

/-- The loop issues at most one request per available response: the number
of requests is bounded by the length of the response chain. -/
theorem fetchPages_requests_le (ps : List Page) :
    (fetchPages ps).requests ≤ ps.length := by
  induction ps with
  | nil => simp [fetchPages]
  | cons p rest ih =>
    by_cases hs : p.status_code = 200
    · cases hu : p.next_url with
      | none => simp [fetchPages_cons_none p rest hs hu]
      | some u =>
        rw [fetchPages_cons_some p rest u hs hu]
        simp only [List.length_cons]
        omega
    · simp [fetchPages_cons_err p rest hs]

/-! ## Claim theorems about the pager -/

/-- C3: for every sequence of valid (status-200) paginated responses, the
batch returned by the fetch job has length equal to the sum of the lengths
of each page's results array, and its element order equals the concatenation
order of the pages as received from the server. -/
theorem aggregator_output_concat (ps : List Page)
    (h200 : ∀ p ∈ ps, p.status_code = 200) (hch : chainOK ps = true) :
    (fetchPages ps).tickers = (ps.map Page.results).flatten ∧
    (fetchPages ps).tickers.length
      = (ps.map (fun p => p.results.length)).sum := by
  have h := fetchChain_spec ps h200 hch
  refine ⟨h.1, ?_⟩
  rw [h.1, List.length_flatten, List.map_map]
  rfl

theorem aggregator_output_concat_witness :
    ((∀ p ∈ [samplePageCursor, samplePageLast], p.status_code = 200) ∧
      chainOK [samplePageCursor, samplePageLast] = true) ∧
    ((fetchPages [samplePageCursor, samplePageLast]).tickers
        = ([samplePageCursor, samplePageLast].map Page.results).flatten ∧
      (fetchPages [samplePageCursor, samplePageLast]).tickers.length
        = ([samplePageCursor, samplePageLast].map
            (fun p => p.results.length)).sum) :=
  ⟨⟨by decide, by decide⟩,
    aggregator_output_concat [samplePageCursor, samplePageLast]
      (by decide) (by decide)⟩

/-- C4: whenever some page request returns a non-success (non-200) status,
pagination stops immediately at that page — exactly one request beyond the
successful prefix is issued — and the records aggregated from the previously
successful pages are returned unchanged. -/
theorem fetch_partial_on_error (good : List Page) (bad : Page)
    (rest : List Page)
    (hg : ∀ p ∈ good, p.status_code = 200 ∧ p.next_url.isSome = true)
    (hbad : bad.status_code ≠ 200) :
    (fetchPages (good ++ bad :: rest)).tickers
      = (good.map Page.results).flatten ∧
    (fetchPages (good ++ bad :: rest)).requests = good.length + 1 ∧
    (fetchPages (good ++ bad :: rest)).sleeps
      = List.replicate good.length rateLimitDelay := by
  induction good with
  | nil =>
    simp [fetchPages_cons_err bad rest hbad]
  | cons p good' ih =>
    have hp := hg p (by simp)
    obtain ⟨u, hu⟩ := Option.isSome_iff_exists.mp hp.2
    have ih' := ih (fun r hr => hg r (List.mem_cons_of_mem p hr))
    rw [List.cons_append, fetchPages_cons_some p (good' ++ bad :: rest) u hp.1 hu]
    refine ⟨?_, ?_, ?_⟩
    · simp [ih'.1]
    · simp only [ih'.2.1, List.length_cons]
      omega
    · simp [ih'.2.2, List.replicate]

theorem fetch_partial_on_error_witness :
    ((∀ p ∈ [samplePageCursor],
        p.status_code = 200 ∧ p.next_url.isSome = true) ∧
      samplePageErr.status_code ≠ 200) ∧
    ((fetchPages ([samplePageCursor] ++ samplePageErr :: [samplePageLast])).tickers
        = ([samplePageCursor].map Page.results).flatten ∧
      (fetchPages ([samplePageCursor] ++ samplePageErr :: [samplePageLast])).requests
        = [samplePageCursor].length + 1 ∧
      (fetchPages ([samplePageCursor] ++ samplePageErr :: [samplePageLast])).sleeps
        = List.replicate [samplePageCursor].length rateLimitDelay) :=
  ⟨⟨by decide, by decide⟩,
    fetch_partial_on_error [samplePageCursor] samplePageErr [samplePageLast]
      (by decide) (by decide)⟩

/-- C5: whenever the API key is absent (unset, or set to the empty string,
both falsy in the source's check), the fetch job raises the configuration
error before opening the HTTP session: the result is the error for every
possible server, so no network request is issued. -/
theorem missing_api_key_aborts (apiKey : Option String) (server : List Page)
    (h : apiKey = none ∨ apiKey = some "") :
    run_stock_job apiKey server = Except.error configErrorMsg := by
  rcases h with h | h <;> subst h <;> rfl

theorem missing_api_key_aborts_witness :
    ((none : Option String) = none ∨ (none : Option String) = some "") ∧
    run_stock_job none [samplePageCursor, samplePageLast]
      = Except.error configErrorMsg :=
  ⟨Or.inl rfl,
    missing_api_key_aborts none [samplePageCursor, samplePageLast] (Or.inl rfl)⟩

/-- C6: on every well-formed all-successful run, a fixed delay of
`rateLimitDelay` seconds — equal to ceil(60 / 5 requests per minute) plus a
one-second margin, i.e. 13 seconds — is slept exactly once between
consecutive requests (once per page that announces a further page), and no
delay follows the final page: the sleep trace of an `n`-page run is
`n - 1` copies of the delay, so a two-page run observes exactly one delay. -/
theorem rate_limit_delay_schedule (ps : List Page)
    (h200 : ∀ p ∈ ps, p.status_code = 200) (hch : chainOK ps = true) :
    (fetchPages ps).sleeps = List.replicate (ps.length - 1) rateLimitDelay ∧
    rateLimitDelay = (60 + 5 - 1) / 5 + 1 ∧ rateLimitDelay = 13 :=
  ⟨(fetchChain_spec ps h200 hch).2, by decide, by decide⟩

theorem rate_limit_delay_schedule_witness :
    ((∀ p ∈ [samplePageCursor, samplePageLast], p.status_code = 200) ∧
      chainOK [samplePageCursor, samplePageLast] = true) ∧
    ((fetchPages [samplePageCursor, samplePageLast]).sleeps
        = List.replicate ([samplePageCursor, samplePageLast].length - 1)
            rateLimitDelay ∧
      rateLimitDelay = (60 + 5 - 1) / 5 + 1 ∧ rateLimitDelay = 13) :=
  ⟨⟨by decide, by decide⟩,
    rate_limit_delay_schedule [samplePageCursor, samplePageLast]
      (by decide) (by decide)⟩

/-- C7: a successful page response without a next-page cursor terminates the
pagination loop after that page — exactly one request, no matter what the
server would have answered next — and on any finite response chain the loop
issues at most one request per chain element, so the fetch job terminates. -/
theorem pagination_terminates (p : Page) (rest : List Page)
    (qs : List Page)
    (h200 : p.status_code = 200) (hnone : p.next_url = none) :
    (fetchPages (p :: rest)).requests = 1 ∧
    (fetchPages (p :: rest)).tickers = p.results ∧
    (fetchPages qs).requests ≤ qs.length := by
  rw [fetchPages_cons_none p rest h200 hnone]
  exact ⟨rfl, rfl, fetchPages_requests_le qs⟩

theorem pagination_terminates_witness :
    (samplePageLast.status_code = 200 ∧ samplePageLast.next_url = none) ∧
    ((fetchPages (samplePageLast :: [samplePageCursor])).requests = 1 ∧
      (fetchPages (samplePageLast :: [samplePageCursor])).tickers
        = samplePageLast.results ∧
      (fetchPages [samplePageErr]).requests ≤ [samplePageErr].length) :=
  ⟨⟨by decide, by decide⟩,
    pagination_terminates samplePageLast [samplePageCursor] [samplePageErr]
      (by decide) (by decide)⟩

/-! ## Helper lemmas about the loader -/

/-- Row counts for a partition key add over table concatenation. -/
theorem countDS_append (a b : List Row) (d : Date) :
    countDS (a ++ b) d = countDS a d + countDS b d := by
  simp [countDS, List.filter_append]

/-- Every row built by the insert loop carries the partition key. -/
theorem tickerToRow_ds (today : Date) (t : Ticker) :
    (tickerToRow today t).ds = today := rfl

/-- The rows built from a batch all match the partition-key filter, so the
partition count of the freshly built rows is the batch length. -/
theorem countDS_map_tickerToRow (tickers : List Ticker) (today : Date) :
    countDS (tickers.map (tickerToRow today)) today = tickers.length := by
  induction tickers with
  | nil => rfl
  | cons t ts ih =>
    simp only [List.map_cons, countDS, List.filter_cons] at *
    simp [tickerToRow_ds, ih]

/-- The rows built from a batch survive the partition-key filter intact. -/
theorem filter_map_tickerToRow (tickers : List Ticker) (today : Date) :
    (tickers.map (tickerToRow today)).filter (fun r => r.ds == today)
      = tickers.map (tickerToRow today) := by
  induction tickers with
  | nil => rfl
  | cons t ts ih =>
    simp only [List.map_cons, List.filter_cons] at *
    simp [tickerToRow_ds, ih]

/-- A zero partition count means no committed row matches the key. -/
theorem filter_eq_nil_of_countDS_eq_zero (rows : List Row) (d : Date)
    (h : countDS rows d = 0) :
    rows.filter (fun r => r.ds == d) = [] :=
  List.eq_nil_of_length_eq_zero h

/-- Unfolding: the successful-insert path of the loader.  With an empty
transaction buffer and no prior rows for the key, the batch rows are staged,
committed, and the cursor is closed. -/
theorem load_commit_eq (tickers : List Ticker) (c : Conn) (today : Date)
    (hp : c.pending = []) (h0 : countDS c.committed today = 0) :
    load_tickers_to_snowflake tickers c today none =
      { conn := { committed := c.committed ++ tickers.map (tickerToRow today)
                  pending := [] }
        outcome := LoadOutcome.commitOk
        cursorOpen := false } := by
  simp [load_tickers_to_snowflake, loadBody, h0, executemanyInsert,
    Conn.commitTxn, hp]

/-- Unfolding: the failing-insert path of the loader.  The injected SQL
failure triggers the rollback, the committed table is left untouched, the
outcome is the re-raised error, and the cursor is closed. -/
theorem load_fail_eq (tickers : List Ticker) (c : Conn) (today : Date)
    (k : Nat) (h0 : countDS c.committed today = 0) :
    load_tickers_to_snowflake tickers c today (some k) =
      { conn := { committed := c.committed, pending := [] }
        outcome := LoadOutcome.fail
        cursorOpen := false } := by
  simp [load_tickers_to_snowflake, loadBody, h0, executemanyInsert,
    Conn.rollbackTxn]

/-- Unfolding: the skip path of the loader.  A positive pre-check count
returns early with the connection unchanged and the cursor closed. -/
theorem load_skip_eq (tickers : List Ticker) (c : Conn) (today : Date)
    (failAt : Option Nat) (hpos : 0 < countDS c.committed today) :
    load_tickers_to_snowflake tickers c today failAt =
      { conn := c, outcome := LoadOutcome.skip, cursorOpen := false } := by
  simp [load_tickers_to_snowflake, loadBody, hpos]

/-! ## Claim theorems about the loader -/

/-- C1: running the loader twice in succession with the same non-empty batch
and the same partition key, starting from a destination with no rows for the
key, leaves exactly one set of rows for the key: the first invocation (zero
pre-check count) commits the batch, the second observes a strictly positive
count and skips without changing the connection, and the rows for the key
afterwards are exactly the rows built from the batch. -/
theorem loader_idempotent (tickers : List Ticker) (c : Conn) (today : Date)
    (hne : tickers ≠ []) (hp : c.pending = [])
    (h0 : countDS c.committed today = 0) :
    (load_tickers_to_snowflake tickers c today none).outcome
      = LoadOutcome.commitOk ∧
    0 < countDS
        (load_tickers_to_snowflake tickers c today none).conn.committed
        today ∧
    (load_tickers_to_snowflake tickers
        (load_tickers_to_snowflake tickers c today none).conn
        today none).outcome = LoadOutcome.skip ∧
    (load_tickers_to_snowflake tickers
        (load_tickers_to_snowflake tickers c today none).conn
        today none).conn
      = (load_tickers_to_snowflake tickers c today none).conn ∧
    ((load_tickers_to_snowflake tickers
        (load_tickers_to_snowflake tickers c today none).conn
        today none).conn.committed.filter (fun r => r.ds == today))
      = tickers.map (tickerToRow today) := by
  rw [load_commit_eq tickers c today hp h0]
  have hpos : 0 < countDS (c.committed ++ tickers.map (tickerToRow today)) today := by
    rw [countDS_append, h0, countDS_map_tickerToRow]
    simpa [List.length_pos] using hne
  rw [load_skip_eq tickers _ today none hpos]
  refine ⟨rfl, hpos, rfl, rfl, ?_⟩
  rw [List.filter_append, filter_eq_nil_of_countDS_eq_zero c.committed today h0,
    filter_map_tickerToRow]
  rfl

theorem loader_idempotent_witness :
    (([sampleTicker] : List Ticker) ≠ [] ∧
      (Conn.mk [] []).pending = [] ∧
      countDS (Conn.mk [] []).committed 0 = 0) ∧
    ((load_tickers_to_snowflake [sampleTicker] (Conn.mk [] []) 0 none).outcome
        = LoadOutcome.commitOk ∧
      0 < countDS
          (load_tickers_to_snowflake [sampleTicker] (Conn.mk [] []) 0
            none).conn.committed 0 ∧
      (load_tickers_to_snowflake [sampleTicker]
          (load_tickers_to_snowflake [sampleTicker] (Conn.mk [] []) 0 none).conn
          0 none).outcome = LoadOutcome.skip ∧
      (load_tickers_to_snowflake [sampleTicker]
          (load_tickers_to_snowflake [sampleTicker] (Conn.mk [] []) 0 none).conn
          0 none).conn
        = (load_tickers_to_snowflake [sampleTicker] (Conn.mk [] []) 0 none).conn ∧
      ((load_tickers_to_snowflake [sampleTicker]
          (load_tickers_to_snowflake [sampleTicker] (Conn.mk [] []) 0 none).conn
          0 none).conn.committed.filter (fun r => r.ds == 0))
        = [sampleTicker].map (tickerToRow 0)) :=
  ⟨⟨by decide, rfl, rfl⟩,
    loader_idempotent [sampleTicker] (Conn.mk [] []) 0 (by decide) rfl rfl⟩

/-- C2: starting from a destination with no rows for the partition key and a
clean transaction, an insert failure injected at any point (`some k`) rolls
the whole transaction back before the error is re-raised — the committed
table is exactly as before, so zero rows for the key are present — while
without a failure the whole batch is committed in one piece; a partial
subset is never committed. -/
theorem loader_atomic (tickers : List Ticker) (c : Conn) (today : Date)
    (k : Nat) (hp : c.pending = [])
    (h0 : countDS c.committed today = 0) :
    ((load_tickers_to_snowflake tickers c today (some k)).outcome
        = LoadOutcome.fail ∧
      (load_tickers_to_snowflake tickers c today (some k)).conn.committed
        = c.committed ∧
      countDS
        (load_tickers_to_snowflake tickers c today (some k)).conn.committed
        today = 0) ∧
    ((load_tickers_to_snowflake tickers c today none).outcome
        = LoadOutcome.commitOk ∧
      (load_tickers_to_snowflake tickers c today none).conn.committed
        = c.committed ++ tickers.map (tickerToRow today)) := by
  rw [load_fail_eq tickers c today k h0, load_commit_eq tickers c today hp h0]
  exact ⟨⟨rfl, rfl, h0⟩, rfl, rfl⟩

theorem loader_atomic_witness :
    ((Conn.mk [] []).pending = [] ∧
      countDS (Conn.mk [] []).committed 0 = 0) ∧
    (((load_tickers_to_snowflake [sampleTicker, sampleTicker2]
          (Conn.mk [] []) 0 (some 1)).outcome = LoadOutcome.fail ∧
      (load_tickers_to_snowflake [sampleTicker, sampleTicker2]
          (Conn.mk [] []) 0 (some 1)).conn.committed
        = (Conn.mk [] []).committed ∧
      countDS
        (load_tickers_to_snowflake [sampleTicker, sampleTicker2]
          (Conn.mk [] []) 0 (some 1)).conn.committed 0 = 0) ∧
    ((load_tickers_to_snowflake [sampleTicker, sampleTicker2]
          (Conn.mk [] []) 0 none).outcome = LoadOutcome.commitOk ∧
      (load_tickers_to_snowflake [sampleTicker, sampleTicker2]
          (Conn.mk [] []) 0 none).conn.committed
        = (Conn.mk [] []).committed
            ++ [sampleTicker, sampleTicker2].map (tickerToRow 0))) :=
  ⟨⟨rfl, rfl⟩,
    loader_atomic [sampleTicker, sampleTicker2] (Conn.mk [] []) 0 1 rfl rfl⟩

/-- C8: on an empty batch with no existing rows for the partition key, the
loader proceeds through the zero-row insert path and completes as a legal
no-op: it commits successfully, the committed table is unchanged, and the
transaction buffer is left clean. -/
theorem empty_batch_noop (c : Conn) (today : Date)
    (hp : c.pending = []) (h0 : countDS c.committed today = 0) :
    (load_tickers_to_snowflake [] c today none).outcome
      = LoadOutcome.commitOk ∧
    (load_tickers_to_snowflake [] c today none).conn.committed
      = c.committed ∧
    (load_tickers_to_snowflake [] c today none).conn.pending = [] := by
  rw [load_commit_eq [] c today hp h0]
  exact ⟨rfl, by simp, rfl⟩

theorem empty_batch_noop_witness :
    ((Conn.mk [] []).pending = [] ∧
      countDS (Conn.mk [] []).committed 0 = 0) ∧
    ((load_tickers_to_snowflake [] (Conn.mk [] []) 0 none).outcome
        = LoadOutcome.commitOk ∧
      (load_tickers_to_snowflake [] (Conn.mk [] []) 0 none).conn.committed
        = (Conn.mk [] []).committed ∧
      (load_tickers_to_snowflake [] (Conn.mk [] []) 0 none).conn.pending
        = []) :=
  ⟨⟨rfl, rfl⟩, empty_batch_noop (Conn.mk [] []) 0 rfl rfl⟩

/-- C9: every row a loader invocation inserts carries the same
partition-date value `today` — the very value used in the pre-insert
existence check — and the rows added to the committed table are exactly the
batch rows stamped with that date, so the post-load count for that key is
the batch length. -/
theorem partition_key_uniform (tickers : List Ticker) (c : Conn)
    (today : Date) (hp : c.pending = [])
    (h0 : countDS c.committed today = 0) :
    (load_tickers_to_snowflake tickers c today none).conn.committed
      = c.committed ++ tickers.map (tickerToRow today) ∧
    (∀ r ∈ tickers.map (tickerToRow today), r.ds = today) ∧
    countDS
      (load_tickers_to_snowflake tickers c today none).conn.committed today
      = tickers.length := by
  rw [load_commit_eq tickers c today hp h0]
  refine ⟨rfl, ?_, ?_⟩
  · intro r hr
    obtain ⟨t, _, rfl⟩ := List.mem_map.mp hr
    exact tickerToRow_ds today t
  · rw [countDS_append, h0, countDS_map_tickerToRow, Nat.zero_add]

theorem partition_key_uniform_witness :
    ((Conn.mk [] []).pending = [] ∧
      countDS (Conn.mk [] []).committed 7 = 0) ∧
    ((load_tickers_to_snowflake [sampleTicker] (Conn.mk [] []) 7
          none).conn.committed
        = (Conn.mk [] []).committed ++ [sampleTicker].map (tickerToRow 7) ∧
      (∀ r ∈ [sampleTicker].map (tickerToRow 7), r.ds = 7) ∧
      countDS
        (load_tickers_to_snowflake [sampleTicker] (Conn.mk [] []) 7
          none).conn.committed 7 = [sampleTicker].length) :=
  ⟨⟨rfl, rfl⟩, partition_key_uniform [sampleTicker] (Conn.mk [] []) 7 rfl rfl⟩

/-- C10: on every exit path of the loader — skip, successful commit, or
re-raised insert failure — the `finally` clause has closed the cursor by the
time the invocation returns or the exception propagates. -/
theorem cursor_closed_on_all_paths (tickers : List Ticker) (c : Conn)
    (today : Date) (failAt : Option Nat) :
    (load_tickers_to_snowflake tickers c today failAt).cursorOpen = false :=
  rfl
